/-
  Verification of the IICS REST API client (src/base.py, src/client.py,
  src/models.py, src/exceptions.py): the session lifecycle, the
  reauthentication retry loop of AsyncIICSClient._request, the error
  classifier raise_for_status, and the response validators parse_model /
  parse_model_list, embedded shallowly.  HTTP traffic is modelled by
  oracles: a transport function giving the response to the n-th request
  attempt, and a function giving the response to the k-th login POST.
-/
import Mathlib

namespace IICS

deriving instance DecidableEq for Except

/-- A decoded JSON value, the result of Python resp.json(). -/
inductive Json where
  | null : Json
  | bool (b : Bool) : Json
  | num (n : Int) : Json
  | str (s : String) : Json
  | arr (items : List Json) : Json
  | obj (fields : List (String × Json)) : Json
  deriving Repr

mutual

/-- Python repr() of a decoded JSON value: strings are quoted, and dicts
    and lists render their elements by repr. -/
def pyRepr : Json → String
  | .null => "None"
  | .bool true => "True"
  | .bool false => "False"
  | .num n => toString n
  | .str s => "\x27" ++ s ++ "\x27"
  | .arr items => "[" ++ pyReprList items ++ "]"
  | .obj fields => "\x7b" ++ pyReprObj fields ++ "\x7d"

/-- Comma-separated repr rendering of a JSON array body. -/
def pyReprList : List Json → String
  | [] => ""
  | [x] => pyRepr x
  | x :: y :: rest => pyRepr x ++ ", " ++ pyReprList (y :: rest)

/-- Comma-separated repr rendering of a JSON object body. -/
def pyReprObj : List (String × Json) → String
  | [] => ""
  | [kv] => "\x27" ++ kv.1 ++ "\x27: " ++ pyRepr kv.2
  | kv :: kv2 :: rest =>
      "\x27" ++ kv.1 ++ "\x27: " ++ pyRepr kv.2 ++ ", " ++ pyReprObj (kv2 :: rest)

end

/-- Python str() of a decoded JSON value: a top-level string is the bare
    string itself; every other value renders as its repr (for None,
    booleans, numbers, dicts and lists str and repr agree, with strings
    nested inside containers quoted by repr). -/
def pyStr : Json → String
  | .str s => s
  | .null => pyRepr .null
  | .bool b => pyRepr (.bool b)
  | .num n => pyRepr (.num n)
  | .arr items => pyRepr (.arr items)
  | .obj fields => pyRepr (.obj fields)

/-- Python str(type(x)) for a decoded JSON value. -/
def pyType : Json → String
  | .null => "<class \x27NoneType\x27>"
  | .bool _ => "<class \x27bool\x27>"
  | .num _ => "<class \x27int\x27>"
  | .str _ => "<class \x27str\x27>"
  | .arr _ => "<class \x27list\x27>"
  | .obj _ => "<class \x27dict\x27>"

/-- The exception taxonomy of src/exceptions.py: IICSError and its
    subclasses, collapsed into a kind tag. -/
inductive ErrKind where
  | generic
  | auth
  | notFound
  | rateLimit
  | server
  | validation
  deriving Repr, DecidableEq

/-- An IICSError value: kind of the raised subclass, message passed to the
    Exception constructor, and the status_code / response_body attributes. -/
structure IICSError where
  kind : ErrKind
  message : String
  status_code : Option Nat
  response_body : Option String
  deriving Repr, DecidableEq

/-- src/base.py raise_for_status: map HTTP status codes to typed IICS
    exceptions; returns normally for 2xx. -/
def raise_for_status (status_code : Nat) (body : String) (url : String) :
    Except IICSError Unit :=
  if 200 ≤ status_code ∧ status_code < 300 then
    .ok ()
  else
    let msg := "HTTP " ++ toString status_code ++ " error for " ++ url ++ ": " ++
      body.take 500
    if status_code = 401 then .error ⟨.auth, msg, some status_code, some body⟩
    else if status_code = 403 then .error ⟨.auth, msg, some status_code, some body⟩
    else if status_code = 404 then .error ⟨.notFound, msg, some status_code, some body⟩
    else if status_code = 429 then .error ⟨.rateLimit, msg, some status_code, some body⟩
    else if 500 ≤ status_code then .error ⟨.server, msg, some status_code, some body⟩
    else .error ⟨.generic, msg, some status_code, some body⟩

/-- Headers are a Python dict str → str: an association list with unique
    keys, insertion ordered. -/
abbrev Headers := List (String × String)

/-- Python d[k] = v on a dict: replace in place, or append a new key. -/
def hset : Headers → String → String → Headers
  | [], k, v => [(k, v)]
  | (k0, v0) :: rest, k, v =>
      if k0 = k then (k0, v) :: rest else (k0, v0) :: hset rest k v

/-- Python d.get(k): first (unique) binding of the key. -/
def hget : Headers → String → Option String
  | [], _ => none
  | (k0, v0) :: rest, k => if k0 = k then some v0 else hget rest k

/-- Python d.pop(k, None): drop the binding of the key if present. -/
def hremove : Headers → String → Headers
  | [], _ => []
  | (k0, v0) :: rest, k => if k0 = k then rest else (k0, v0) :: hremove rest k

/-- Python d.update(extra): set every binding of extra, in order. -/
def hupdate (h : Headers) (extra : Headers) : Headers :=
  extra.foldl (fun acc kv => hset acc kv.1 kv.2) h

/-- src/base.py ApiVersion. -/
inductive ApiVersion where
  | V2
  | V3
  deriving Repr, DecidableEq

def DEFAULT_TIMEOUT : Nat := 30

def DEFAULT_MAX_RETRIES : Nat := 3

def DEFAULT_MAX_REAUTH_ATTEMPTS : Nat := 2

/-- src/base.py SESSION_EXPIRED_CODES = {401, 403}. -/
def SESSION_EXPIRED_CODES : List Nat := [401, 403]

def API_V2_PREFIX : String := "/api/v2"

def API_V3_PREFIX : String := "/api/v3"

/-- src/base.py SESSION_HEADER: per-version auth header name. -/
def SESSION_HEADER : ApiVersion → String
  | .V2 => "icSessionId"
  | .V3 => "INFA-SESSION-ID"

/-- src/base.py BASE_HEADERS. -/
def BASE_HEADERS : Headers :=
  [("Accept", "application/json"), ("Content-Type", "application/json")]

/-- src/base.py build_request_headers: base headers, the version-specific
    session header, then caller overrides merged last. -/
def build_request_headers (session_id : String) (api_version : ApiVersion)
    (extra_headers : Option Headers) : Headers :=
  let headers := hset BASE_HEADERS (SESSION_HEADER api_version) session_id
  match extra_headers with
  | none => headers
  | some extra => hupdate headers extra

/-- A pydantic model class, abstracted: its __name__ and its
    model_validate (which raises ValidationError, carried as a message). -/
structure Shape (T : Type) where
  name : String
  model_validate : Json → Except String T

/-- src/base.py parse_model: wrap a pydantic ValidationError into
    IICSValidationError(msg, None, str(data)). -/
def parse_model {T : Type} (model_cls : Shape T) (data : Json) :
    Except IICSError T :=
  match model_cls.model_validate data with
  | .ok v => .ok v
  | .error e =>
      .error ⟨.validation, "Failed to parse " ++ model_cls.name ++ ": " ++ e,
        none, some (pyStr data)⟩

/-- src/base.py parse_model_list: reject non-list data, then parse each
    element in order, failing on the first invalid element. -/
def parse_model_list {T : Type} (model_cls : Shape T) (data : Json) :
    Except IICSError (List T) :=
  match data with
  | .arr items => items.mapM (fun item => parse_model model_cls item)
  | _ =>
      .error ⟨.validation,
        "Expected a list to parse into " ++ model_cls.name ++ " models, got " ++
          pyType data,
        none, some (pyStr data)⟩

/-- src/models.py SessionInfo. -/
structure SessionInfo where
  user_id : String
  name : String
  org_id : String
  org_name : Option String
  server_url : String
  session_id : String
  deriving Repr, DecidableEq

/-- Lookup of a key in the fields of a JSON object. -/
def jget : List (String × Json) → String → Option Json
  | [], _ => none
  | (k0, v) :: rest, k => if k0 = k then some v else jget rest k

/-- Pydantic required str field with populate_by_name: accept the alias
    first, then the field name; the value must be a JSON string. -/
def fieldStr (fields : List (String × Json)) (aliasName fname : String) :
    Except String String :=
  match jget fields aliasName with
  | some (.str s) => .ok s
  | some _ => .error (aliasName ++ ": Input should be a valid string")
  | none =>
      match jget fields fname with
      | some (.str s) => .ok s
      | some _ => .error (fname ++ ": Input should be a valid string")
      | none => .error (aliasName ++ ": Field required")

/-- Pydantic optional str field (default None) with populate_by_name. -/
def fieldStrOpt (fields : List (String × Json)) (aliasName fname : String) :
    Except String (Option String) :=
  match jget fields aliasName with
  | some (.str s) => .ok (some s)
  | some .null => .ok none
  | some _ => .error (aliasName ++ ": Input should be a valid string")
  | none =>
      match jget fields fname with
      | some (.str s) => .ok (some s)
      | some .null => .ok none
      | some _ => .error (fname ++ ": Input should be a valid string")
      | none => .ok none

/-- SessionInfo.model_validate: the aliased field table of src/models.py
    (id, name, orgId, orgName optional, serverUrl, icSessionId), with
    populate_by_name enabled. -/
def SessionInfo.model_validate (data : Json) : Except String SessionInfo :=
  match data with
  | .obj fields => do
      let user_id ← fieldStr fields "id" "user_id"
      let name ← fieldStr fields "name" "name"
      let org_id ← fieldStr fields "orgId" "org_id"
      let org_name ← fieldStrOpt fields "orgName" "org_name"
      let server_url ← fieldStr fields "serverUrl" "server_url"
      let session_id ← fieldStr fields "icSessionId" "session_id"
      .ok ⟨user_id, name, org_id, org_name, server_url, session_id⟩
  | _ => .error "Input should be a valid dictionary"

/-- The SessionInfo model as a Shape. -/
def SessionInfoShape : Shape SessionInfo :=
  ⟨"SessionInfo", SessionInfo.model_validate⟩

/-- Constructor-time configuration of AsyncIICSClient, immutable for the
    client lifetime. -/
structure ClientConfig where
  login_url : String
  username : String
  password : String
  max_retries : Nat
  max_reauth_attempts : Nat
  http2 : Bool
  deriving Repr, DecidableEq

/-- The mutable state of an AsyncIICSClient: the optional installed
    session and the persistent default headers of the pooled httpx
    client (self._client.headers). -/
structure ClientState where
  config : ClientConfig
  session_info : Option SessionInfo
  client_headers : Headers
  deriving Repr, DecidableEq

/-- The httpx client default headers set in __init__. -/
def INIT_CLIENT_HEADERS : Headers :=
  [("Content-Type", "application/json"), ("Accept", "application/json")]

/-- The session_info property: raises IICSAuthError when no session is
    installed. -/
def session_info_prop (st : ClientState) : Except IICSError SessionInfo :=
  match st.session_info with
  | none => .error ⟨.auth, "Not authenticated. Call login() first.", none, none⟩
  | some s => .ok s

/-- Python s.rstrip of the slash character: drop all trailing slashes. -/
def rstripSlashes (s : String) : String :=
  String.mk ((s.toList.reverse.dropWhile (fun c => c = '/')).reverse)

/-- The base_url property: session server_url with trailing slashes
    stripped (raises through session_info_prop when unauthenticated). -/
def base_url (st : ClientState) : Except IICSError String :=
  (session_info_prop st).map (fun s => rstripSlashes s.server_url)

/-- AsyncIICSClient._url: base_url ++ prefix ++ path. -/
def url_for (st : ClientState) (path : String) (pfx : String) :
    Except IICSError String :=
  (base_url st).map (fun b => b ++ pfx ++ path)

/-- AsyncIICSClient._headers: build_request_headers over the live
    session (raises when unauthenticated). -/
def headers_for (st : ClientState) (api_version : ApiVersion)
    (extra_headers : Option Headers) : Except IICSError Headers :=
  (session_info_prop st).map
    (fun s => build_request_headers s.session_id api_version extra_headers)

/-- An HTTP response as seen by the client: status_code, text, and the
    value resp.json() would produce. -/
structure HttpResponse where
  status_code : Nat
  text : String
  json : Json
  deriving Repr

/-- An HTTP request issued by the client. -/
structure HttpRequest where
  method : String
  url : String
  body : Option Json
  deriving Repr

/-- The login POST built by AsyncIICSClient.login from its configuration. -/
def loginRequest (cfg : ClientConfig) : HttpRequest :=
  ⟨"POST", cfg.login_url ++ "/ma/api/v2/user/login",
    some (.obj [("@type", .str "login"), ("username", .str cfg.username),
      ("password", .str cfg.password)])⟩

/-- AsyncIICSClient.login, with the HTTP response to the login POST
    supplied by an oracle.  On non-2xx raise_for_status raises and no
    state is mutated; on 2xx the body is validated into a SessionInfo
    which is installed, and the icSessionId default header of the httpx
    client is set to the new token. -/
def login (st : ClientState) (resp : HttpResponse) :
    Except IICSError SessionInfo × ClientState :=
  match raise_for_status resp.status_code resp.text
      (st.config.login_url ++ "/ma/api/v2/user/login") with
  | .error e => (.error e, st)
  | .ok _ =>
      match parse_model SessionInfoShape resp.json with
      | .error e => (.error e, st)
      | .ok info =>
          (.ok info,
            { st with
                session_info := some info,
                client_headers := hset st.client_headers "icSessionId" info.session_id })

/-- Outcome of the best-effort logout POST: either some response (any
    status) or a raised transport exception. -/
inductive PostOutcome where
  | resp (r : HttpResponse)
  | exn (msg : String)
  deriving Repr

/-- Result of AsyncIICSClient.logout: the (never-failing) return value,
    the state afterwards, and the POST issued, if any. -/
structure LogoutResult where
  result : Except IICSError Unit
  state : ClientState
  request : Option HttpRequest
  deriving Repr

/-- AsyncIICSClient.logout: no-op without a session; otherwise POST to
    the logout endpoint, catch and log any exception, never inspect the
    response status, and in the finally block clear the session and pop
    the icSessionId default header. -/
def logout (st : ClientState) (outcome : PostOutcome) : LogoutResult :=
  match st.session_info with
  | none => ⟨.ok (), st, none⟩
  | some _ =>
      let url := st.config.login_url ++ "/ma/api/v2/user/logout"
      match outcome with
      | .resp _ =>
          ⟨.ok (),
            { st with
                session_info := none,
                client_headers := hremove st.client_headers "icSessionId" },
            some ⟨"POST", url, none⟩⟩
      | .exn _ =>
          ⟨.ok (),
            { st with
                session_info := none,
                client_headers := hremove st.client_headers "icSessionId" },
            some ⟨"POST", url, none⟩⟩

/-- Result of AsyncIICSClient._request: the returned value (None or the
    JSON body) or the raised error, the client state afterwards, the
    number of login calls performed, and the per-request header dicts
    passed to the transport, in order. -/
structure RequestOutcome where
  result : Except IICSError (Option Json)
  state : ClientState
  logins : Nat
  sent : List Headers
  deriving Repr

/-- The body of the for-loop of AsyncIICSClient._request, with the
    remaining iteration count as fuel (the loop runs
    range(1 + max_reauth_attempts)).  transport n h is the response to
    the n-th request attempt issued with headers h; loginTransport k is
    the response to the k-th login POST.  Exhausting the fuel is
    Python's fall through the end of the for loop: the function returns
    None. -/
def requestLoop (api_version : ApiVersion) (url : String)
    (extra_headers : Option Headers)
    (transport : Nat → Headers → HttpResponse)
    (loginTransport : Nat → HttpResponse) :
    Nat → Nat → Nat → ClientState → List Headers → RequestOutcome
  | 0, _, logins, st, sent => ⟨.ok none, st, logins, sent⟩
  | remaining + 1, attempt, logins, st, sent =>
      match headers_for st api_version extra_headers with
      | .error e => ⟨.error e, st, logins, sent⟩
      | .ok headers =>
          let resp := transport attempt headers
          let body := resp.text
          if resp.status_code ∈ SESSION_EXPIRED_CODES ∧
              attempt ≤ st.config.max_reauth_attempts then
            match login st (loginTransport logins) with
            | (.error e, st2) =>
                if e.kind = ErrKind.auth then
                  -- re-login itself failed: raise the original auth error
                  match raise_for_status resp.status_code body url with
                  | .error orig => ⟨.error orig, st2, logins + 1, sent ++ [headers]⟩
                  | .ok _ =>
                      requestLoop api_version url extra_headers transport
                        loginTransport remaining (attempt + 1) (logins + 1) st2
                        (sent ++ [headers])
                else
                  -- a non-auth login failure propagates uncaught
                  ⟨.error e, st2, logins + 1, sent ++ [headers]⟩
            | (.ok _, st2) =>
                requestLoop api_version url extra_headers transport
                  loginTransport remaining (attempt + 1) (logins + 1) st2
                  (sent ++ [headers])
          else
            match raise_for_status resp.status_code body url with
            | .error e => ⟨.error e, st, logins, sent ++ [headers]⟩
            | .ok _ =>
                if body = "" ∨ resp.status_code = 204 then
                  ⟨.ok none, st, logins, sent ++ [headers]⟩
                else
                  ⟨.ok (some resp.json), st, logins, sent ++ [headers]⟩

/-- AsyncIICSClient._request: run the reauthentication loop for
    1 + max_reauth_attempts iterations. -/
def request (st : ClientState) (api_version : ApiVersion) (url : String)
    (extra_headers : Option Headers)
    (transport : Nat → Headers → HttpResponse)
    (loginTransport : Nat → HttpResponse) : RequestOutcome :=
  requestLoop api_version url extra_headers transport loginTransport
    (1 + st.config.max_reauth_attempts) 0 0 st []

/-- httpx merge of the client default headers with per-request headers:
    request-level values win per key. -/
def effectiveHeaders (client_headers request_headers : Headers) : Headers :=
  hupdate client_headers request_headers

/-- The URL built by list_connections: it calls _get with
    api_version V2 but leaves the default /api/v3 prefix of _get. -/
def listConnectionsUrl (st : ClientState) : Except IICSError String :=
  url_for st "/connection" API_V3_PREFIX

/-- The API version list_connections declares for its headers. -/
def listConnectionsApiVersion : ApiVersion := ApiVersion.V2

/-! Concrete fixtures shared by the witnesses below. -/

/-- A concrete client configuration with the default reauth bound. -/
def cfg1 : ClientConfig := ⟨"https://login", "u", "p", 3, 2, true⟩

/-- A concrete installed session. -/
def sess1 : SessionInfo := ⟨"u1", "alice", "o1", none, "https://host/", "tok123"⟩

/-- A client state with sess1 installed. -/
def st1 : ClientState :=
  ⟨cfg1, some sess1, hset INIT_CLIENT_HEADERS "icSessionId" "tok123"⟩

/-- The same client with no session installed. -/
def st1cleared : ClientState := ⟨cfg1, none, INIT_CLIENT_HEADERS⟩

/-- A session-expired response. -/
def resp401 : HttpResponse := ⟨401, "expired", .null⟩

/-- A successful login response installing token tok456. -/
def goodLoginResp : HttpResponse :=
  ⟨200, "ok",
    .obj [("id", .str "u1"), ("name", .str "alice"), ("orgId", .str "o1"),
      ("serverUrl", .str "https://host"), ("icSessionId", .str "tok456")]⟩

/-- A successful data response with a non-empty body. -/
def resp200 : HttpResponse := ⟨200, "data", .obj [("connections", .arr [])]⟩

/-! Helper lemmas about the header dictionary operations. -/

theorem hget_hset_self (h : Headers) (k v : String) :
    hget (hset h k v) k = some v := by
  induction h with
  | nil => simp [hset, hget]
  | cons kv rest ih =>
      obtain ⟨k0, v0⟩ := kv
      by_cases hk : k0 = k <;> simp [hset, hget, hk, ih]

theorem hget_hset_ne (h : Headers) (k v k2 : String) (hne : k ≠ k2) :
    hget (hset h k v) k2 = hget h k2 := by
  induction h with
  | nil => simp [hset, hget, hne]
  | cons kv rest ih =>
      obtain ⟨k0, v0⟩ := kv
      by_cases hk : k0 = k
      · subst hk
        simp [hset, hget, hne]
      · simp [hset, hget, hk, ih]

theorem hget_eq_none_of_not_mem (h : Headers) (k : String)
    (hk : k ∉ h.map Prod.fst) : hget h k = none := by
  induction h with
  | nil => simp [hget]
  | cons kv rest ih =>
      obtain ⟨k0, v0⟩ := kv
      have h1 : ¬k0 = k := by
        intro he
        exact hk (by simp [he])
      have h2 : k ∉ rest.map Prod.fst := by
        intro hm
        exact hk (by simp [hm])
      simp [hget, h1, ih h2]

theorem hget_hupdate_none (h extra : Headers) (k : String)
    (hk : hget extra k = none) : hget (hupdate h extra) k = hget h k := by
  induction extra generalizing h with
  | nil => simp [hupdate]
  | cons kv rest ih =>
      obtain ⟨k0, v0⟩ := kv
      have hne : ¬k0 = k := by
        intro he
        simp [hget, he] at hk
      have hrest : hget rest k = none := by
        simpa [hget, hne] using hk
      have hstep : hupdate h ((k0, v0) :: rest) = hupdate (hset h k0 v0) rest := by
        simp [hupdate]
      rw [hstep, ih _ hrest, hget_hset_ne _ _ _ _ hne]

theorem hget_hupdate_some (h extra : Headers) (k v : String)
    (hnd : (extra.map Prod.fst).Nodup) (hk : hget extra k = some v) :
    hget (hupdate h extra) k = some v := by
  induction extra generalizing h with
  | nil => simp [hget] at hk
  | cons kv rest ih =>
      obtain ⟨k0, v0⟩ := kv
      simp at hnd
      have hstep : hupdate h ((k0, v0) :: rest) = hupdate (hset h k0 v0) rest := by
        simp [hupdate]
      by_cases hkk : k0 = k
      · subst hkk
        have hv : v0 = v := by simpa [hget] using hk
        have hrest : hget rest k0 = none :=
          hget_eq_none_of_not_mem _ _ (by
            intro hmem
            exact absurd (by simpa using hmem) (by simpa using hnd.1))
        rw [hstep, hget_hupdate_none _ _ _ hrest, hget_hset_self, hv]
      · have hrest : hget rest k = some v := by simpa [hget, hkk] using hk
        rw [hstep, ih _ hnd.2 hrest]

theorem hget_hremove_self (h : Headers) (k : String)
    (hnd : (h.map Prod.fst).Nodup) : hget (hremove h k) k = none := by
  induction h with
  | nil => simp [hremove, hget]
  | cons kv rest ih =>
      obtain ⟨k0, v0⟩ := kv
      simp at hnd
      by_cases hk : k0 = k
      · subst hk
        simp only [hremove, if_pos rfl]
        exact hget_eq_none_of_not_mem _ _ (by
          intro hmem
          exact absurd (by simpa using hmem) (by simpa using hnd.1))
      · simp [hremove, hget, hk, ih hnd.2]

/-- raise_for_status succeeds exactly on the 2xx range. -/
theorem raise_for_status_ok_iff (status_code : Nat) (body url : String) :
    raise_for_status status_code body url = .ok () ↔
      200 ≤ status_code ∧ status_code < 300 := by
  unfold raise_for_status
  split_ifs with h <;> simp [h]

/-- C3: the error classifier raise_for_status is a pure function of the
    status code, body and URL.  Every status in [200, 300) raises nothing;
    401 and 403 raise Auth; 404 NotFound; 429 RateLimit; every status
    ≥ 500 ServerError; every other non-2xx status the generic error.  Each
    raised error carries the status code, the full body on the error
    object, and a message built from the first 500 characters of the body
    and the request URL. -/
theorem C3_error_classifier (status_code : Nat) (body url : String) :
    (200 ≤ status_code ∧ status_code < 300 →
      raise_for_status status_code body url = .ok ()) ∧
    (¬(200 ≤ status_code ∧ status_code < 300) →
      raise_for_status status_code body url =
        .error
          ⟨if status_code = 401 ∨ status_code = 403 then ErrKind.auth
            else if status_code = 404 then ErrKind.notFound
            else if status_code = 429 then ErrKind.rateLimit
            else if 500 ≤ status_code then ErrKind.server
            else ErrKind.generic,
          "HTTP " ++ toString status_code ++ " error for " ++ url ++ ": " ++
            body.take 500,
          some status_code, some body⟩) := by
  constructor
  · intro h
    simp [raise_for_status, h]
  · intro h
    simp only [raise_for_status, if_neg h]
    split_ifs with h1 h2 h3 h4 h5 <;> simp_all

/-- Witness for C3 at status 404: NotFound carrying the status, the body
    and the URL-bearing message. -/
theorem C3_error_classifier_witness :
    ¬(200 ≤ 404 ∧ 404 < 300) ∧
    raise_for_status 404 "missing" "https://x/y" =
      .error ⟨ErrKind.notFound, "HTTP 404 error for https://x/y: missing",
        some 404, some "missing"⟩ := by
  refine ⟨by decide, ?_⟩
  have h := (C3_error_classifier 404 "missing" "https://x/y").2 (by decide)
  rw [h, String.take_eq]
  decide

/-- C5: whenever no session is installed, querying the current session,
    the base URL, or the auth-header derivation raises an Auth error, and
    _request itself raises Auth before issuing anything. -/
theorem C5_no_session_raises_auth (st : ClientState)
    (hs : st.session_info = none) (av : ApiVersion) (extra : Option Headers)
    (url : String) (transport : Nat → Headers → HttpResponse)
    (lt : Nat → HttpResponse) :
    (∃ e, session_info_prop st = .error e ∧ e.kind = ErrKind.auth) ∧
    (∃ e, base_url st = .error e ∧ e.kind = ErrKind.auth) ∧
    (∃ e, headers_for st av extra = .error e ∧ e.kind = ErrKind.auth) ∧
    (∃ e, (request st av url extra transport lt).result = .error e ∧
      e.kind = ErrKind.auth) := by
  have hprop : session_info_prop st =
      .error ⟨.auth, "Not authenticated. Call login() first.", none, none⟩ := by
    simp [session_info_prop, hs]
  refine ⟨⟨_, hprop, rfl⟩,
    ⟨⟨.auth, "Not authenticated. Call login() first.", none, none⟩, ?_, rfl⟩,
    ⟨⟨.auth, "Not authenticated. Call login() first.", none, none⟩, ?_, rfl⟩,
    ⟨⟨.auth, "Not authenticated. Call login() first.", none, none⟩, ?_, rfl⟩⟩
  · simp [base_url, hprop, Except.map]
  · simp [headers_for, hprop, Except.map]
  · have h1 : 1 + st.config.max_reauth_attempts =
        st.config.max_reauth_attempts + 1 := Nat.add_comm 1 _
    unfold request
    rw [h1]
    simp [requestLoop, headers_for, hprop, Except.map]

/-- Witness for C5: the concrete cleared client. -/
theorem C5_no_session_raises_auth_witness :
    (∃ e, session_info_prop st1cleared = .error e ∧ e.kind = ErrKind.auth) ∧
    (∃ e, base_url st1cleared = .error e ∧ e.kind = ErrKind.auth) ∧
    (∃ e, headers_for st1cleared ApiVersion.V3 none = .error e ∧
      e.kind = ErrKind.auth) ∧
    (∃ e, (request st1cleared ApiVersion.V3 "https://host/api/v3/x" none
        (fun _ _ => resp200) (fun _ => goodLoginResp)).result = .error e ∧
      e.kind = ErrKind.auth) :=
  C5_no_session_raises_auth st1cleared rfl ApiVersion.V3 none
    "https://host/api/v3/x" (fun _ _ => resp200) (fun _ => goodLoginResp)

/-- C6: logout is a no-op without a session; otherwise it POSTs to the
    logout endpoint, never surfaces an error whatever the outcome of that
    POST, and always clears the session so a subsequent session query
    raises Auth. -/
theorem C6_logout_best_effort (st : ClientState) (outcome : PostOutcome) :
    (st.session_info = none → logout st outcome = ⟨.ok (), st, none⟩) ∧
    (logout st outcome).result = .ok () ∧
    (∀ s, st.session_info = some s →
      (logout st outcome).request =
        some ⟨"POST", st.config.login_url ++ "/ma/api/v2/user/logout", none⟩ ∧
      (logout st outcome).state.session_info = none ∧
      ∃ e, session_info_prop (logout st outcome).state = .error e ∧
        e.kind = ErrKind.auth) := by
  refine ⟨fun hn => ?_, ?_, fun s hsome => ?_⟩
  · simp [logout, hn]
  · cases hs : st.session_info <;> cases outcome <;> simp [logout, hs]
  · cases outcome <;>
      exact ⟨by simp [logout, hsome], by simp [logout, hsome],
        ⟨⟨.auth, "Not authenticated. Call login() first.", none, none⟩,
          by simp [logout, hsome, session_info_prop], rfl⟩⟩

/-- Witness for C6: logout against a server answering 500 surfaces no
    error and clears the session. -/
theorem C6_logout_best_effort_witness :
    (logout st1 (PostOutcome.resp ⟨500, "boom", .null⟩)).result = .ok () ∧
    (logout st1 (PostOutcome.resp ⟨500, "boom", .null⟩)).request =
      some ⟨"POST", "https://login/ma/api/v2/user/logout", none⟩ ∧
    (logout st1 (PostOutcome.resp ⟨500, "boom", .null⟩)).state.session_info = none ∧
    ∃ e, session_info_prop
        (logout st1 (PostOutcome.resp ⟨500, "boom", .null⟩)).state = .error e ∧
      e.kind = ErrKind.auth := by
  have h := C6_logout_best_effort st1 (PostOutcome.resp ⟨500, "boom", .null⟩)
  have h3 := h.2.2 sess1 rfl
  exact ⟨h.2.1, h3.1, h3.2.1, h3.2.2⟩

/-- mapM over parse_model fails with the first invalid element's error
    when every earlier element parses. -/
theorem mapM_parse_first_error {T : Type} (shape : Shape T) (pre rest : List Json)
    (bad : Json) (e : IICSError)
    (hpre : ∀ x ∈ pre, ∃ y, parse_model shape x = .ok y)
    (hbad : parse_model shape bad = .error e) :
    (pre ++ bad :: rest).mapM (fun item => parse_model shape item) = .error e := by
  induction pre with
  | nil =>
      rw [List.nil_append, List.mapM_cons, hbad]
      rfl
  | cons x xs ih =>
      obtain ⟨y, hy⟩ := hpre x (by simp)
      have ih2 := ih (fun z hz => hpre z (by simp [hz]))
      rw [List.cons_append, List.mapM_cons, hy]
      show ((xs ++ bad :: rest).mapM (fun item => parse_model shape item) >>=
        fun ys => pure (y :: ys)) = .error e
      rw [ih2]
      rfl

/-- C9: validation behaviour.  For a single-entity shape any structural
    mismatch raises Validation with a null status code, the shape's name
    in the message, and the raw value serialized to text in the error
    body, while a valid payload returns the typed value; for a list
    shape, a non-sequence value raises Validation carrying actual-type
    information whatever the element validator does, a sequence is
    validated element by element in order, and the first invalid element's
    error is raised. -/
theorem C9_validation {T : Type} (shape : Shape T) (data : Json) :
    (∀ err, shape.model_validate data = .error err →
      parse_model shape data =
        .error ⟨ErrKind.validation,
          "Failed to parse " ++ shape.name ++ ": " ++ err,
          none, some (pyStr data)⟩) ∧
    (∀ v, shape.model_validate data = .ok v → parse_model shape data = .ok v) ∧
    ((∀ items, data ≠ Json.arr items) →
      parse_model_list shape data =
        .error ⟨ErrKind.validation,
          "Expected a list to parse into " ++ shape.name ++ " models, got " ++
            pyType data,
          none, some (pyStr data)⟩) ∧
    (∀ items, parse_model_list shape (Json.arr items) =
      items.mapM (fun item => parse_model shape item)) ∧
    (∀ pre bad rest e, (∀ x ∈ pre, ∃ y, parse_model shape x = .ok y) →
      parse_model shape bad = .error e →
      parse_model_list shape (Json.arr (pre ++ bad :: rest)) = .error e) ∧
    (∀ items vs, items.mapM (fun item => parse_model shape item) = .ok vs →
      parse_model_list shape (Json.arr items) = .ok vs) := by
  refine ⟨fun err herr => ?_, fun v hv => ?_, fun hnl => ?_, fun items => rfl,
    fun pre bad rest e hpre hbad => ?_, fun items vs hvs => hvs⟩
  · simp [parse_model, herr]
  · simp [parse_model, hv]
  · cases data with
    | arr items => exact absurd rfl (hnl items)
    | null => rfl
    | bool b => rfl
    | num n => rfl
    | str s => rfl
    | obj fields => rfl
  · exact mapM_parse_first_error shape pre rest bad e hpre hbad

/-- Witness for C9 with the SessionInfo shape: a non-dict payload fails
    the single shape, a non-list fails the list shape with type
    information before any element parsing, and a list whose second
    element is invalid fails with that element's error after the first
    parses. -/
theorem C9_validation_witness :
    parse_model SessionInfoShape (Json.num 7) =
      .error ⟨ErrKind.validation,
        "Failed to parse SessionInfo: Input should be a valid dictionary",
        none, some "7"⟩ ∧
    parse_model_list SessionInfoShape (Json.str "x") =
      .error ⟨ErrKind.validation,
        "Expected a list to parse into SessionInfo models, got <class \x27str\x27>",
        none, some "x"⟩ ∧
    parse_model_list SessionInfoShape
        (Json.arr [goodLoginResp.json, Json.num 7]) =
      .error ⟨ErrKind.validation,
        "Failed to parse SessionInfo: Input should be a valid dictionary",
        none, some "7"⟩ := by
  refine ⟨?_, ?_, ?_⟩
  · exact (C9_validation SessionInfoShape (Json.num 7)).1 _ rfl
  · exact (C9_validation SessionInfoShape (Json.str "x")).2.2.1
      (fun items h => Json.noConfusion h)
  · exact (C9_validation SessionInfoShape
        (Json.arr [goodLoginResp.json, Json.num 7])).2.2.2.2.1
      [goodLoginResp.json] (Json.num 7) [] _
      (by
        intro x hx
        simp at hx
        subst hx
        exact ⟨⟨"u1", "alice", "o1", none, "https://host", "tok456"⟩, rfl⟩)
      ((C9_validation SessionInfoShape (Json.num 7)).1 _ rfl)

/-- C4: login issues one POST to loginUrl/ma/api/v2/user/login with a
    JSON body carrying the username and password; on a non-2xx response
    it raises the classified error and leaves the state untouched; on
    2xx it validates the body into a SessionInfo via the aliased field
    table and installs it, wholesale replacing any prior session. -/
theorem C4_login_contract (st : ClientState) (resp : HttpResponse) :
    (loginRequest st.config).method = "POST" ∧
    (loginRequest st.config).url = st.config.login_url ++ "/ma/api/v2/user/login" ∧
    (loginRequest st.config).body =
      some (Json.obj [("@type", Json.str "login"),
        ("username", Json.str st.config.username),
        ("password", Json.str st.config.password)]) ∧
    (¬(200 ≤ resp.status_code ∧ resp.status_code < 300) →
      ∃ e, raise_for_status resp.status_code resp.text
          (loginRequest st.config).url = .error e ∧
        login st resp = (.error e, st)) ∧
    (∀ info, 200 ≤ resp.status_code ∧ resp.status_code < 300 →
      SessionInfo.model_validate resp.json = .ok info →
      login st resp = (.ok info,
        { st with
            session_info := some info,
            client_headers := hset st.client_headers "icSessionId" info.session_id })) := by
  refine ⟨rfl, rfl, rfl, fun hnok => ?_, fun info h2 hval => ?_⟩
  · have h := (C3_error_classifier resp.status_code resp.text
      (loginRequest st.config).url).2 hnok
    refine ⟨_, h, ?_⟩
    simp only [loginRequest] at h
    simp [login, h, loginRequest]
  · have hok : raise_for_status resp.status_code resp.text
        (st.config.login_url ++ "/ma/api/v2/user/login") = .ok () :=
      (raise_for_status_ok_iff _ _ _).2 h2
    simp [login, hok, parse_model, SessionInfoShape, hval]

/-- Witness for C4: the mock login response of the spec scenario installs
    serverUrl https://host and token tok123. -/
theorem C4_login_contract_witness :
    login st1cleared
        ⟨200, "ok",
          .obj [("id", .str "u1"), ("name", .str "alice"), ("orgId", .str "o1"),
            ("serverUrl", .str "https://host"), ("icSessionId", .str "tok123")]⟩ =
      (.ok ⟨"u1", "alice", "o1", none, "https://host", "tok123"⟩,
        { st1cleared with
            session_info := some ⟨"u1", "alice", "o1", none, "https://host", "tok123"⟩,
            client_headers := hset st1cleared.client_headers "icSessionId" "tok123" }) := by
  exact (C4_login_contract st1cleared
      ⟨200, "ok",
        .obj [("id", .str "u1"), ("name", .str "alice"), ("orgId", .str "o1"),
          ("serverUrl", .str "https://host"), ("icSessionId", .str "tok123")]⟩).2.2.2.2
    ⟨"u1", "alice", "o1", none, "https://host", "tok123"⟩ (by decide) rfl

/-- C7: a first response in [200, 300) raises nothing: _request performs
    no login, leaves the state unchanged, and returns None for an empty
    body or status 204 and the parsed JSON body otherwise. -/
theorem C7_two_hundred_payload (st : ClientState) (s : SessionInfo)
    (hs : st.session_info = some s) (av : ApiVersion) (url : String)
    (extra : Option Headers) (transport : Nat → Headers → HttpResponse)
    (lt : Nat → HttpResponse) (r : HttpResponse)
    (hr : transport 0 (build_request_headers s.session_id av extra) = r)
    (h2 : 200 ≤ r.status_code ∧ r.status_code < 300) :
    request st av url extra transport lt =
      ⟨if r.text = "" ∨ r.status_code = 204 then .ok none else .ok (some r.json),
        st, 0, [build_request_headers s.session_id av extra]⟩ := by
  have h1 : 1 + st.config.max_reauth_attempts =
      st.config.max_reauth_attempts + 1 := Nat.add_comm 1 _
  have hh : headers_for st av extra =
      .ok (build_request_headers s.session_id av extra) := by
    simp [headers_for, session_info_prop, hs, Except.map]
  have h401 : r.status_code ≠ 401 := by omega
  have h403 : r.status_code ≠ 403 := by omega
  have hok : raise_for_status r.status_code r.text url = .ok () :=
    (raise_for_status_ok_iff _ _ _).2 h2
  unfold request
  rw [h1]
  by_cases hc : r.text = "" ∨ r.status_code = 204 <;>
    simp [requestLoop, hh, hr, hok, hc, SESSION_EXPIRED_CODES, h401, h403]

/-- Witness for C7: a 200 response with body data is returned parsed. -/
theorem C7_two_hundred_payload_witness :
    request st1 ApiVersion.V2 "https://host/api/v2/connection" none
        (fun _ _ => resp200) (fun _ => goodLoginResp) =
      ⟨.ok (some resp200.json), st1, 0,
        [build_request_headers sess1.session_id ApiVersion.V2 none]⟩ := by
  have h := C7_two_hundred_payload st1 sess1 rfl ApiVersion.V2
    "https://host/api/v2/connection" none (fun _ _ => resp200)
    (fun _ => goodLoginResp) resp200 rfl (by decide)
  simpa [resp200] using h

/-- C2: a session-expired response with reauth attempts remaining causes
    exactly one login for that response; the request is retried with
    headers rebuilt from the newly installed session, and a 2xx retry
    outcome is returned to the caller with no error. -/
theorem C2_reauth_transparent_retry (st : ClientState) (s info : SessionInfo)
    (hs : st.session_info = some s)
    (hN : 1 ≤ st.config.max_reauth_attempts)
    (av : ApiVersion) (url : String) (extra : Option Headers)
    (transport : Nat → Headers → HttpResponse) (lt : Nat → HttpResponse)
    (r0 lr r1 : HttpResponse)
    (h0 : transport 0 (build_request_headers s.session_id av extra) = r0)
    (hexp : r0.status_code = 401 ∨ r0.status_code = 403)
    (hlt : lt 0 = lr)
    (hl2 : 200 ≤ lr.status_code ∧ lr.status_code < 300)
    (hval : SessionInfo.model_validate lr.json = .ok info)
    (h1 : transport 1 (build_request_headers info.session_id av extra) = r1)
    (hr1 : 200 ≤ r1.status_code ∧ r1.status_code < 300) :
    request st av url extra transport lt =
      ⟨if r1.text = "" ∨ r1.status_code = 204 then .ok none else .ok (some r1.json),
        { st with
            session_info := some info,
            client_headers := hset st.client_headers "icSessionId" info.session_id },
        1,
        [build_request_headers s.session_id av extra,
          build_request_headers info.session_id av extra]⟩ := by
  obtain ⟨k, hk⟩ : ∃ k, st.config.max_reauth_attempts = k + 1 :=
    ⟨st.config.max_reauth_attempts - 1, by omega⟩
  have hfuel : 1 + st.config.max_reauth_attempts = k + 1 + 1 := by omega
  have hh0 : headers_for st av extra =
      .ok (build_request_headers s.session_id av extra) := by
    simp [headers_for, session_info_prop, hs, Except.map]
  have hlok : raise_for_status lr.status_code lr.text
      (st.config.login_url ++ "/ma/api/v2/user/login") = .ok () :=
    (raise_for_status_ok_iff _ _ _).2 hl2
  have hlogin : login st lr =
      (.ok info,
        { st with
            session_info := some info,
            client_headers := hset st.client_headers "icSessionId" info.session_id }) := by
    simp [login, hlok, parse_model, SessionInfoShape, hval]
  have hh1 : headers_for
      { st with
          session_info := some info,
          client_headers := hset st.client_headers "icSessionId" info.session_id }
      av extra = .ok (build_request_headers info.session_id av extra) := by
    simp [headers_for, session_info_prop, Except.map]
  have h401 : r1.status_code ≠ 401 := by omega
  have h403 : r1.status_code ≠ 403 := by omega
  have hok1 : raise_for_status r1.status_code r1.text url = .ok () :=
    (raise_for_status_ok_iff _ _ _).2 hr1
  unfold request
  rw [hfuel]
  by_cases hc : r1.text = "" ∨ r1.status_code = 204 <;>
    simp [requestLoop, hh0, h0, hexp, hlt, hlogin, hh1, h1, hok1, hc,
      SESSION_EXPIRED_CODES, h401, h403, hk]

/-- Witness for C2: the spec scenario, a 401 then a 200 after a simulated
    re-login, with exactly one login recorded. -/
theorem C2_reauth_transparent_retry_witness :
    request st1 ApiVersion.V3 "https://host/api/v3/x" none
        (fun n _ => if n = 0 then resp401 else resp200) (fun _ => goodLoginResp) =
      ⟨.ok (some resp200.json),
        { st1 with
            session_info := some ⟨"u1", "alice", "o1", none, "https://host", "tok456"⟩,
            client_headers := hset st1.client_headers "icSessionId" "tok456" },
        1,
        [build_request_headers "tok123" ApiVersion.V3 none,
          build_request_headers "tok456" ApiVersion.V3 none]⟩ := by
  have h := C2_reauth_transparent_retry st1 sess1
    ⟨"u1", "alice", "o1", none, "https://host", "tok456"⟩ rfl (by decide)
    ApiVersion.V3 "https://host/api/v3/x" none
    (fun n _ => if n = 0 then resp401 else resp200) (fun _ => goodLoginResp)
    resp401 goodLoginResp resp200 rfl (by decide) rfl (by decide) rfl rfl
    (by decide)
  simpa [resp200] using h

/-- C1 (evaluation at the failing input): with the default bound of two
    reauth attempts, when every request attempt returns 401 and every
    re-login succeeds, the for loop of _request is exhausted and the
    function returns None silently — three logins are performed and no
    error is raised, although 401 classifies as an Auth error, which the
    guard `attempt <= max_reauth_attempts` (always true over
    range(1 + max_reauth_attempts)) was meant to propagate. -/
theorem C1_exhaustion_returns_none_silently :
    st1.config.max_reauth_attempts = DEFAULT_MAX_REAUTH_ATTEMPTS ∧
    (request st1 ApiVersion.V3 "https://host/api/v3/x" none
        (fun _ _ => resp401) (fun _ => goodLoginResp)).result = .ok none ∧
    (request st1 ApiVersion.V3 "https://host/api/v3/x" none
        (fun _ _ => resp401) (fun _ => goodLoginResp)).logins = 3 ∧
    ∃ e, raise_for_status resp401.status_code resp401.text
        "https://host/api/v3/x" = .error e ∧ e.kind = ErrKind.auth := by
  refine ⟨rfl, rfl, rfl, ⟨_, rfl, rfl⟩⟩

/-- C8 counterexample: list_connections declares ApiVersion.V2 (so its
    auth header is icSessionId) yet its URL is built with the /api/v3
    default prefix of _get, not /api/v2: the claimed coupling of path
    prefix to API version fails on this concrete call. -/
theorem C8_counterexample_v2_call_uses_v3_prefix :
    listConnectionsApiVersion = ApiVersion.V2 ∧
    SESSION_HEADER listConnectionsApiVersion = "icSessionId" ∧
    listConnectionsUrl st1 = .ok "https://host/api/v3/connection" ∧
    listConnectionsUrl st1 ≠ .ok ("https://host" ++ API_V2_PREFIX ++ "/connection") := by
  refine ⟨rfl, rfl, rfl, ?_⟩
  intro h
  rw [show listConnectionsUrl st1 = .ok "https://host/api/v3/connection" from rfl] at h
  exact absurd (Except.ok.inj h) (by decide)

/-- C8 (amended): the base URL is the session serverUrl with trailing
    slashes stripped and the path prefix is a separate per-call parameter,
    /api/v3 by default and not derived from the API version; the auth
    header name follows the version (icSessionId for V2, INFA-SESSION-ID
    for V3) and carries the session token; Accept and Content-Type are
    application/json unless overridden; caller-supplied overrides are
    merged last and win. -/
theorem C8_request_building (st : ClientState) (s : SessionInfo)
    (hs : st.session_info = some s) (path pfx : String) (av : ApiVersion)
    (extra : Headers) (hnd : (extra.map Prod.fst).Nodup) :
    url_for st path pfx = .ok (rstripSlashes s.server_url ++ pfx ++ path) ∧
    url_for st path API_V3_PREFIX =
      .ok (rstripSlashes s.server_url ++ "/api/v3" ++ path) ∧
    SESSION_HEADER ApiVersion.V2 = "icSessionId" ∧
    SESSION_HEADER ApiVersion.V3 = "INFA-SESSION-ID" ∧
    hget (build_request_headers s.session_id av none) (SESSION_HEADER av) =
      some s.session_id ∧
    hget (build_request_headers s.session_id av none) "Accept" =
      some "application/json" ∧
    hget (build_request_headers s.session_id av none) "Content-Type" =
      some "application/json" ∧
    (hget extra (SESSION_HEADER av) = none →
      hget (build_request_headers s.session_id av (some extra)) (SESSION_HEADER av) =
        some s.session_id) ∧
    (hget extra "Accept" = none →
      hget (build_request_headers s.session_id av (some extra)) "Accept" =
        some "application/json") ∧
    (hget extra "Content-Type" = none →
      hget (build_request_headers s.session_id av (some extra)) "Content-Type" =
        some "application/json") ∧
    (∀ k v, hget extra k = some v →
      hget (build_request_headers s.session_id av (some extra)) k = some v) := by
  have hbu : base_url st = .ok (rstripSlashes s.server_url) := by
    simp [base_url, session_info_prop, hs, Except.map]
  refine ⟨by simp [url_for, hbu, Except.map],
    by simp [url_for, hbu, Except.map, API_V3_PREFIX], rfl, rfl,
    ?_, ?_, ?_, fun hx => ?_, fun hx => ?_, fun hx => ?_, fun k v hkv => ?_⟩
  · cases av <;> rfl
  · cases av <;> rfl
  · cases av <;> rfl
  · rw [build_request_headers, hget_hupdate_none _ _ _ hx, hget_hset_self]
  · rw [build_request_headers, hget_hupdate_none _ _ _ hx]
    cases av <;> rfl
  · rw [build_request_headers, hget_hupdate_none _ _ _ hx]
    cases av <;> rfl
  · rw [build_request_headers]
    exact hget_hupdate_some _ _ _ _ hnd hkv

/-- Witness for C8 (amended): a V2-versioned call with an explicit
    /api/v2 prefix, the V2 session header, and an Accept override that
    wins over the base headers. -/
theorem C8_request_building_witness :
    url_for st1 "/connection" "/api/v2" = .ok "https://host/api/v2/connection" ∧
    hget (build_request_headers "tok123" ApiVersion.V2
        (some [("Accept", "text/plain")])) "icSessionId" = some "tok123" ∧
    hget (build_request_headers "tok123" ApiVersion.V2
        (some [("Accept", "text/plain")])) "Accept" = some "text/plain" := by
  have h := C8_request_building st1 sess1 rfl "/connection" "/api/v2"
    ApiVersion.V2 [("Accept", "text/plain")] (by simp)
  refine ⟨?_, ?_, ?_⟩
  · have h1 := h.1
    rw [h1]
    rw [show rstripSlashes sess1.server_url = "https://host" from by decide]
    exact congrArg Except.ok (by decide)
  · exact h.2.2.2.2.2.2.2.1 rfl
  · exact h.2.2.2.2.2.2.2.2.2.2 "Accept" "text/plain" rfl

/-- C10: besides installing the SessionInfo, a successful login sets the
    icSessionId persistent default header of the shared httpx client to
    the new token, so every subsequent request whose per-request headers
    lack icSessionId — in particular a V3 call, whose built headers carry
    only INFA-SESSION-ID — and the logout POST (no per-request headers)
    carry it after the httpx merge; a failed login changes nothing; the
    configuration is never changed; logout clears the session and removes
    exactly that default header. -/
theorem C10_frame_effects (st : ClientState) (resp : HttpResponse)
    (outcome : PostOutcome) :
    (∀ info st2, login st resp = (.ok info, st2) →
      st2.config = st.config ∧
      st2.session_info = some info ∧
      st2.client_headers = hset st.client_headers "icSessionId" info.session_id ∧
      hget st2.client_headers "icSessionId" = some info.session_id ∧
      (∀ req_headers, hget req_headers "icSessionId" = none →
        hget (effectiveHeaders st2.client_headers req_headers) "icSessionId" =
          some info.session_id) ∧
      hget (build_request_headers info.session_id ApiVersion.V3 none)
        "icSessionId" = none ∧
      hget (effectiveHeaders st2.client_headers
          (build_request_headers info.session_id ApiVersion.V3 none))
        "icSessionId" = some info.session_id ∧
      hget (effectiveHeaders st2.client_headers
          (build_request_headers info.session_id ApiVersion.V3 none))
        "INFA-SESSION-ID" = some info.session_id ∧
      effectiveHeaders st2.client_headers [] = st2.client_headers) ∧
    (∀ e st2, login st resp = (.error e, st2) → st2 = st) ∧
    (logout st outcome).state.config = st.config ∧
    (∀ s, st.session_info = some s →
      (logout st outcome).state.session_info = none ∧
      (logout st outcome).state.client_headers =
        hremove st.client_headers "icSessionId" ∧
      ((st.client_headers.map Prod.fst).Nodup →
        hget (logout st outcome).state.client_headers "icSessionId" = none)) := by
  have hv3none : ∀ sid, hget (build_request_headers sid ApiVersion.V3 none)
      "icSessionId" = none := fun sid => rfl
  have hv3id : ∀ sid, hget (build_request_headers sid ApiVersion.V3 none)
      "INFA-SESSION-ID" = some sid := fun sid => rfl
  have hv3nodup : ∀ sid, (((build_request_headers sid ApiVersion.V3 none).map
      Prod.fst)).Nodup := fun sid => by
    simp [build_request_headers, BASE_HEADERS, SESSION_HEADER, hset]
  refine ⟨fun info st2 hl => ?_, fun e st2 hl => ?_, ?_, fun s hsome => ?_⟩
  · have hpost : st2 =
        { st with
            session_info := some info,
            client_headers := hset st.client_headers "icSessionId" info.session_id } ∧
        True := by
      unfold login at hl
      rcases hrs : raise_for_status resp.status_code resp.text
          (st.config.login_url ++ "/ma/api/v2/user/login") with e0 | u
      · rw [hrs] at hl
        exact absurd (congrArg Prod.fst hl) (by simp)
      · rw [hrs] at hl
        rcases hpm : parse_model SessionInfoShape resp.json with e0 | info0
        · rw [hpm] at hl
          exact absurd (congrArg Prod.fst hl) (by simp)
        · rw [hpm] at hl
          have h1 := congrArg Prod.fst hl
          have h2 := congrArg Prod.snd hl
          simp at h1 h2
          rw [← h2, h1]
          exact ⟨rfl, trivial⟩
    obtain ⟨hpost, -⟩ := hpost
    subst hpost
    refine ⟨rfl, rfl, rfl, hget_hset_self _ _ _, fun req hreq => ?_, hv3none _,
      ?_, ?_, rfl⟩
    · rw [effectiveHeaders, hget_hupdate_none _ _ _ hreq]
      exact hget_hset_self _ _ _
    · rw [effectiveHeaders, hget_hupdate_none _ _ _ (hv3none _)]
      exact hget_hset_self _ _ _
    · rw [effectiveHeaders]
      exact hget_hupdate_some _ _ _ _ (hv3nodup _) (hv3id _)
  · unfold login at hl
    rcases hrs : raise_for_status resp.status_code resp.text
        (st.config.login_url ++ "/ma/api/v2/user/login") with e0 | u
    · rw [hrs] at hl
      exact (congrArg Prod.snd hl).symm
    · rw [hrs] at hl
      rcases hpm : parse_model SessionInfoShape resp.json with e0 | info0
      · rw [hpm] at hl
        exact (congrArg Prod.snd hl).symm
      · rw [hpm] at hl
        exact absurd (congrArg Prod.fst hl) (by simp)
  · cases hs : st.session_info <;> cases outcome <;> simp [logout, hs]
  · cases outcome <;>
      exact ⟨by simp [logout, hsome], by simp [logout, hsome],
        fun hnd => by
          simp only [logout, hsome]
          exact hget_hremove_self _ _ hnd⟩

/-- Witness for C10: the concrete login response installs tok456 into the
    default headers, a V3 request then carries both session headers, and
    logout removes the default header. -/
theorem C10_frame_effects_witness :
    (st1.config = st1.config ∧
      (some ⟨"u1", "alice", "o1", none, "https://host", "tok456"⟩ :
        Option SessionInfo) = some ⟨"u1", "alice", "o1", none, "https://host", "tok456"⟩ ∧
      hset st1.client_headers "icSessionId" "tok456" =
        hset st1.client_headers "icSessionId" "tok456" ∧
      hget (hset st1.client_headers "icSessionId" "tok456") "icSessionId" =
        some "tok456" ∧
      (∀ req_headers, hget req_headers "icSessionId" = none →
        hget (effectiveHeaders (hset st1.client_headers "icSessionId" "tok456")
          req_headers) "icSessionId" = some "tok456") ∧
      hget (build_request_headers "tok456" ApiVersion.V3 none) "icSessionId" = none ∧
      hget (effectiveHeaders (hset st1.client_headers "icSessionId" "tok456")
          (build_request_headers "tok456" ApiVersion.V3 none)) "icSessionId" =
        some "tok456" ∧
      hget (effectiveHeaders (hset st1.client_headers "icSessionId" "tok456")
          (build_request_headers "tok456" ApiVersion.V3 none)) "INFA-SESSION-ID" =
        some "tok456" ∧
      effectiveHeaders (hset st1.client_headers "icSessionId" "tok456") [] =
        hset st1.client_headers "icSessionId" "tok456") ∧
    (logout st1 (PostOutcome.exn "connatu")).state.session_info = none ∧
    hget (logout st1 (PostOutcome.exn "connatu")).state.client_headers
      "icSessionId" = none := by
  have h := C10_frame_effects st1 goodLoginResp (PostOutcome.exn "connatu")
  have hlogin : login st1 goodLoginResp =
      (.ok ⟨"u1", "alice", "o1", none, "https://host", "tok456"⟩,
        { st1 with
            session_info := some ⟨"u1", "alice", "o1", none, "https://host", "tok456"⟩,
            client_headers := hset st1.client_headers "icSessionId" "tok456" }) := rfl
  have h1 := h.1 ⟨"u1", "alice", "o1", none, "https://host", "tok456"⟩
    { st1 with
        session_info := some ⟨"u1", "alice", "o1", none, "https://host", "tok456"⟩,
        client_headers := hset st1.client_headers "icSessionId" "tok456" } hlogin
  have h4 := h.2.2.2 sess1 rfl
  exact ⟨h1, h4.1, h4.2.2 (by decide)⟩

end IICS
